import Mathlib

set_option linter.unusedVariables false

/-
Shallow embedding of the Dapr gRPC API gateway (src/pkg/api/grpc/grpc.go).

Each RPC handler is translated to a pure Lean function over an explicit
environment record (standing for the component store, the pluggable drivers,
and the resiliency-wrapped driver calls) and returns its response, its
optional error, and the ordered list of externally visible effects (driver
dispatches and metric emissions).  Byte slices are `List Nat`, Go maps used
as request metadata are association lists, and fallible Go calls return
`Except`/`Option`.  Definitions carrying a doc comment that starts with
"Modelled from the spec:" stand for code of this repository that is not under
src/ (only its callers are); everything else is translated from grpc.go.
-/

/-- Byte slices (Go `[]byte`); each entry stands for one byte. -/
abbrev Bytes := List Nat

/-- Request metadata / headers (Go `map[string]string`) as an association list. -/
abbrev Meta := List (String × String)

/-- gRPC status codes used by the call sites in grpc.go. -/
inductive Code where
  | ok
  | canceled
  | unknown
  | invalidArgument
  | deadlineExceeded
  | notFound
  | permissionDenied
  | failedPrecondition
  | aborted
  | unimplemented
  | internal
  | unavailable
  deriving DecidableEq

/-- Errors surfaced by a handler:
`api` is a rich API error built at the gateway (apierrors.Basic and friends)
carrying an explicit status code; `kitPass` is a driver error that already
carried a rich status (kiterrors.FromError succeeded) and is passed through;
`raw` is a plain Go error returned unwrapped (the transport maps it to the
Unknown status code). -/
inductive Err where
  | api (code : Code) (msg : String)
  | kitPass (code : Code) (msg : String)
  | raw (msg : String)
  deriving DecidableEq

/-- The status code the caller observes on the wire for each error shape. -/
def Err.grpcCode : Err → Code
  | .api c _ => c
  | .kitPass c _ => c
  | .raw _ => .unknown

/-- Go `any` values held in state.SetRequest.Value: either raw bytes or the
result of json.Unmarshal (kept abstract as its source text). -/
inductive GoValue where
  | bytes (b : Bytes)
  | jsonVal (s : String)
  deriving DecidableEq

/-- state.GetRequest dispatched to the driver. -/
structure GetReq where
  key : String
  metadata : Meta
  consistency : String
  deriving DecidableEq

/-- state.SetRequest dispatched to the driver. -/
structure SetReq where
  key : String
  value : GoValue
  etag : Option String
  metadata : Meta
  concurrency : String
  consistency : String
  deriving DecidableEq

/-- state.DeleteRequest dispatched to the driver. -/
structure DeleteReq where
  key : String
  etag : Option String
  metadata : Meta
  concurrency : String
  consistency : String
  deriving DecidableEq

/-- state.TransactionalStateOperation: the tagged union of upserts and deletes. -/
inductive TxOp where
  | set (r : SetReq)
  | del (r : DeleteReq)
  deriving DecidableEq

/-- The shape of one state-store driver dispatch. -/
inductive StateDispatchOp where
  | bulkGet (reqs : List GetReq) (parallelism : Int)
  | get (req : GetReq)
  | setBulk (reqs : List SetReq)
  | delete (req : DeleteReq)
  | deleteBulk (reqs : List DeleteReq)
  | multi (ops : List TxOp) (metadata : Meta)
  deriving DecidableEq

/-- Externally visible side effects of a handler, in program order:
driver dispatches and metric emissions. -/
inductive Effect where
  | bulkPublishDispatch (pubsubName topic : String) (entryIds : List String)
  | bulkEgressMetric (pubsubName topic : String) (success : Bool) (published : Int)
  | bindingDispatch (name operation : String) (metadata : Meta)
  | bindingMetric (name operation : String) (success : Bool)
  | stateDispatch (storeName : String) (op : StateDispatchOp)
  | stateMetric (storeName : String) (operation : String) (success : Bool)
  | recordErrorCode (code : String)
  deriving DecidableEq

/-- True for effects that dispatch a request to a component driver
(as opposed to metric recording). -/
def Effect.isDispatch : Effect → Bool
  | .bulkPublishDispatch _ _ _ => true
  | .bindingDispatch _ _ _ => true
  | .stateDispatch _ _ => true
  | _ => false

/-- Outcome of one RPC handler: the response message, the returned error
(if any), and the effects performed, in order. -/
structure RpcResult (α : Type) where
  resp : α
  err : Option Err
  effects : List Effect
  deriving DecidableEq

/-- Modelled from the spec: the encryption gate (pkg/encryption, not under
src/).  Per section 4.D and the section 3 invariant, encryption is opt-in per
store name and binary transparent: decryption of a ciphertext produced by
encryption returns the exact plaintext bytes, and the ciphertext differs from
the plaintext.  Decryption of corrupt ciphertext may fail. -/
structure EncryptionScheme where
  encrypt : Bytes → Bytes
  decrypt : Bytes → Except String Bytes
  roundTrip : ∀ v, decrypt (encrypt v) = .ok v
  ciphertextNe : ∀ v, encrypt v ≠ v

/-- A concrete encryption scheme (prepend a marker byte) satisfying the
spec-modelled interface; used to evaluate the handlers on concrete inputs. -/
def markScheme : EncryptionScheme where
  encrypt v := 0 :: v
  decrypt v :=
    match v with
    | 0 :: rest => .ok rest
    | _ => .error ("failed to decrypt ciphertext")
  roundTrip := by intro v; rfl
  ciphertextNe := by
    intro v h
    have hlen := congrArg List.length h
    simp at hlen

/-- Modelled from the spec: stateLoader.GetModifiedStateKey (pkg/components/
state, not under src/).  Per section 4.F the rewrite app-scopes a logical key
into the physical driver key; an empty logical key is rejected with
InvalidArgument, and keys containing the separator character are illegal. -/
def getModifiedStateKey (key storeName appID : String) : Except Err String :=
  if key = "" then
    .error (.api .invalidArgument ("state key cannot be empty"))
  else if key.data.contains '|' then
    .error (.api .invalidArgument ("input key or keyPrefix contains an illegal separator character"))
  else
    .ok (appID ++ "||" ++ key)

/-- Whether a character list contains the two-character separator. -/
def containsSep : List Char → Bool
  | [] => false
  | [_] => false
  | c1 :: c2 :: rest => (c1 == '|' && c2 == '|') || containsSep (c2 :: rest)

/-- Everything after the first occurrence of the two-character separator. -/
def afterSep : List Char → List Char
  | [] => []
  | [_] => []
  | c1 :: c2 :: rest => if c1 == '|' && c2 == '|' then rest else afterSep (c2 :: rest)

/-- Modelled from the spec: stateLoader.GetOriginalStateKey (pkg/components/
state, not under src/).  Per section 4.F this reverses the rewrite: it
projects a physical driver key back to the logical key (the part after the
app-scoping separator); keys without a separator are returned unchanged. -/
def getOriginalStateKey (k : String) : String :=
  if containsSep k.data then String.mk (afterSep k.data) else k

theorem string_data_append (a b : String) : (a ++ b).data = a.data ++ b.data := by
  cases a; cases b; rfl

theorem afterSep_append (app key : List Char) (h : ∀ c ∈ app, c ≠ '|') :
    afterSep (app ++ '|' :: '|' :: key) = key := by
  induction app with
  | nil => simp [afterSep]
  | cons c cs ih =>
    have hc : c ≠ '|' := h c (by simp)
    cases cs with
    | nil =>
      simp [afterSep, hc]
    | cons c2 cs2 =>
      have hrest : ∀ x ∈ c2 :: cs2, x ≠ '|' := by
        intro x hx
        exact h x (List.mem_cons_of_mem _ hx)
      have := ih hrest
      simpa [afterSep, hc] using this

theorem containsSep_append (app key : List Char) (h : ∀ c ∈ app, c ≠ '|') :
    containsSep (app ++ '|' :: '|' :: key) = true := by
  induction app with
  | nil => simp [containsSep]
  | cons c cs ih =>
    have hc : c ≠ '|' := h c (by simp)
    cases cs with
    | nil =>
      simp [containsSep]
    | cons c2 cs2 =>
      have hrest : ∀ x ∈ c2 :: cs2, x ≠ '|' := by
        intro x hx
        exact h x (List.mem_cons_of_mem _ hx)
      have := ih hrest
      simpa [containsSep, hc] using this

/-- Reversing the rewrite recovers the logical key, provided the app id does
not itself contain the separator character. -/
theorem getOriginalStateKey_rewrite (key storeName appID mk : String)
    (happ : ∀ c ∈ appID.data, c ≠ '|')
    (hmk : getModifiedStateKey key storeName appID = .ok mk) :
    getOriginalStateKey mk = key := by
  unfold getModifiedStateKey at hmk
  split at hmk
  · exact absurd hmk (by simp)
  · split at hmk
    · exact absurd hmk (by simp)
    · have hmk2 : appID ++ "||" ++ key = mk := by
        simpa using hmk
      subst hmk2
      have hdata : (appID ++ "||" ++ key).data = appID.data ++ '|' :: '|' :: key.data := by
        rw [string_data_append, string_data_append]
        have : ("||" : String).data = ['|', '|'] := rfl
        rw [this, List.append_assoc]
        rfl
      unfold getOriginalStateKey
      rw [hdata, containsSep_append _ _ happ, if_pos rfl, afterSep_append _ _ happ]

/-- A single entry of a BulkPublishRequest (runtimev1pb.BulkPublishRequestEntry). -/
structure BulkEntryReq where
  entryId : String
  event : Bytes
  contentType : String
  metadata : Meta
  deriving DecidableEq

/-- runtimev1pb.BulkPublishRequest. -/
structure BulkPublishReq where
  pubsubName : String
  topic : String
  entries : List BulkEntryReq
  metadata : Meta
  deriving DecidableEq

/-- pubsub.BulkPublishResponse entry as returned by the broker adapter. -/
structure BrokerFailedEntry where
  entryId : String
  error : Option String
  deriving DecidableEq

/-- The classification of a broker-adapter error used by the error mapping
switch in PublishEvent and BulkPublishEventAlpha1 (runtimePubsub.NotAllowedError,
runtimePubsub.NotFoundError, or anything else). -/
inductive BrokerErrKind where
  | notAllowed
  | notFound
  | other
  deriving DecidableEq

/-- An error value returned by the broker adapter. -/
structure BrokerErr where
  kind : BrokerErrKind
  msg : String
  deriving DecidableEq

/-- The pair (res, err) returned by pubsubAdapter.BulkPublish. -/
structure BrokerResult where
  failedEntries : List BrokerFailedEntry
  err : Option BrokerErr
  deriving DecidableEq

/-- runtimev1pb.BulkPublishResponseFailedEntry surfaced to the caller. -/
structure FailedEntryResp where
  entryId : String
  error : String
  deriving DecidableEq

/-- runtimev1pb.BulkPublishResponse. -/
structure BulkPublishResp where
  failedEntries : List FailedEntryResp := []
  deriving DecidableEq

/-- One processed pubsub.BulkMessageEntry as dispatched to the broker. -/
structure ProcEntry where
  entryId : String
  event : Bytes
  contentType : String
  metadata : Meta
  deriving DecidableEq

/-- Environment of the publish handlers: adapter presence, the registered
pubsub component names, the app id, the envelope builder and serializer
(runtimePubsub.NewCloudEvent followed by json.Marshal, which may fail), and
the result the broker adapter produces for this call. -/
structure PubSubEnv where
  adapterConfigured : Bool
  pubsubs : List String
  appID : String
  buildEnvelope : String → String → String → Bytes → Meta → Except String Bytes
  brokerResult : BrokerResult

/-- Modelled from the spec: contribMetadata.IsRawPayload (components-contrib,
external).  Parses the raw-payload flag from request metadata; an unparsable
value is a deserialization error. -/
def isRawPayload (meta : Meta) : Except String Bool :=
  match meta.lookup ("rawPayload") with
  | none => .ok false
  | some v =>
    if v = "true" then .ok true
    else if v = "false" then .ok false
    else .error ("rawPayload value must be a valid boolean: actual is " ++ v)

/-- validateAndGetPubsubAndTopic (grpc.go:141).  Checks, in order: adapter
configured, pubsub name non-empty, pubsub registered, topic non-empty, and
the raw-payload metadata flag parses.  Returns the pubsub name, topic and
raw-payload flag. -/
def validateAndGetPubsubAndTopic (env : PubSubEnv) (pubsubName topic : String)
    (reqMeta : Meta) : Except Err (String × String × Bool) :=
  if env.adapterConfigured = false then
    .error (.api .failedPrecondition ("pubsub " ++ pubsubName ++ " is not configured"))
  else if pubsubName = "" then
    .error (.api .invalidArgument ("pubsub name is empty"))
  else if env.pubsubs.contains pubsubName = false then
    .error (.api .invalidArgument ("pubsub " ++ pubsubName ++ " not found"))
  else if topic = "" then
    .error (.api .invalidArgument ("topic is empty in pubsub " ++ pubsubName))
  else
    match isRawPayload reqMeta with
    | .error m => .error (.api .invalidArgument m)
    | .ok raw => .ok (pubsubName, topic, raw)

/-- Modelled from the spec: utils.PopulateMetadataForBulkPublishEntry (pkg/
utils, not under src/).  Entry-level metadata keys override request-level
metadata (grpc.go:394). -/
def populateBulkEntryMeta (reqMeta entryMeta : Meta) : Meta :=
  entryMeta ++ reqMeta.filter (fun kv => (entryMeta.lookup kv.1).isNone)

/-- The duplicated-or-absent entry id validation error raised at grpc.go:383.
The error is built by apierrors PubSub ... MarshalEvents, whose status code
(InvalidArgument) is modelled from the spec since pkg/api/errors is not under
src/. -/
def dupEntryIdErr : Err :=
  .api .invalidArgument ("entryId is duplicated or not present for entry")

/-- The per-entry loop of BulkPublishEventAlpha1 (grpc.go:381).  For each
entry, in order: the entry id is validated against the set of ids seen so
far and against emptiness; entry metadata is populated from request metadata
when present; unless the raw-payload flag is set, the event payload is
replaced by the serialized cloud-event envelope (which may fail). -/
def processEntries (env : PubSubEnv) (pubsubName topic : String) (reqMeta : Meta)
    (raw : Bool) : List BulkEntryReq → List String → Except Err (List ProcEntry)
  | [], _ => .ok []
  | e :: rest, seen =>
    if e.entryId ∈ seen ∨ e.entryId = "" then
      .error dupEntryIdErr
    else
      let meta := if e.metadata = [] then [] else populateBulkEntryMeta reqMeta e.metadata
      let ev : Except String Bytes :=
        if raw then .ok e.event
        else env.buildEnvelope env.appID topic e.contentType e.event meta
      match ev with
      | .error m => .error (.api .invalidArgument m)
      | .ok evb =>
        match processEntries env pubsubName topic reqMeta raw rest (e.entryId :: seen) with
        | .error err => .error err
        | .ok tail =>
          .ok ({ entryId := e.entryId, event := evb, contentType := e.contentType,
                 metadata := meta } :: tail)

/-- The broker-error mapping switch shared by PublishEvent and
BulkPublishEventAlpha1 (grpc.go:469): NotAllowedError maps to a forbidden
error, NotFoundError to a not-found error, anything else to an internal
publish error. -/
def mapPublishError (pubsubName topic : String) (e : BrokerErr) : Err :=
  match e.kind with
  | .notAllowed => .api .permissionDenied ("publishing to topic " ++ topic ++ " is forbidden: " ++ e.msg)
  | .notFound => .api .notFound ("topic " ++ topic ++ " not found in pubsub " ++ pubsubName ++ ": " ++ e.msg)
  | .other => .api .internal ("error when publishing to topic " ++ topic ++ " in pubsub " ++ pubsubName ++ ": " ++ e.msg)

/-- BulkPublishEventAlpha1 (grpc.go:358).  After validation and the per-entry
loop, the batch is dispatched to the broker adapter and the egress metric is
recorded with the published count (all entries minus the failed ones).  A
non-nil adapter error is mapped and returned with an empty response; otherwise
the failed entries reported by the adapter are copied, with their per-entry
error messages, into the response and the call returns without error. -/
def bulkPublishEventAlpha1 (env : PubSubEnv) (req : BulkPublishReq) :
    RpcResult BulkPublishResp :=
  match validateAndGetPubsubAndTopic env req.pubsubName req.topic req.metadata with
  | .error e => { resp := {}, err := some e, effects := [] }
  | .ok (pn, topic, raw) =>
    match processEntries env pn topic req.metadata raw req.entries [] with
    | .error e => { resp := {}, err := some e, effects := [] }
    | .ok entries =>
      let res := env.brokerResult
      let published : Int :=
        (entries.length : Int) -
          (if res.failedEntries.length ≠ 0 then (res.failedEntries.length : Int) else 0)
      let effects := [Effect.bulkPublishDispatch pn topic (entries.map (·.entryId)),
                      Effect.bulkEgressMetric pn topic (res.err = none) published]
      match res.err with
      | some e => { resp := {}, err := some (mapPublishError pn topic e), effects := effects }
      | none =>
        { resp := { failedEntries :=
            res.failedEntries.map (fun r => { entryId := r.entryId, error := r.error.getD ("") }) },
          err := none, effects := effects }

/-- Entry-id validity exactly as checked by the per-entry loop: every id is
absent from the ids seen before it and non-empty. -/
def entryIdsValid : List BulkEntryReq → List String → Bool
  | [], _ => true
  | e :: rest, seen =>
    if e.entryId ∈ seen ∨ e.entryId = "" then false
    else entryIdsValid rest (e.entryId :: seen)

theorem processEntries_ok_of_valid (env : PubSubEnv) (pn topic : String) (reqMeta : Meta)
    (raw : Bool) (l : List BulkEntryReq) (seen : List String)
    (hfine : ∀ e ∈ l, (if raw then Except.ok e.event
        else env.buildEnvelope env.appID topic e.contentType e.event
          (if e.metadata = [] then [] else populateBulkEntryMeta reqMeta e.metadata)).isOk)
    (hval : entryIdsValid l seen = true) :
    ∃ pes, processEntries env pn topic reqMeta raw l seen = .ok pes ∧ pes.length = l.length := by
  induction l generalizing seen with
  | nil => exact ⟨[], rfl, rfl⟩
  | cons e rest ih =>
    unfold entryIdsValid at hval
    split at hval
    · exact absurd hval (by simp)
    · rename_i hnot
      have hface := hfine e (by simp)
      obtain ⟨evb, hev⟩ : ∃ evb, (if raw then Except.ok e.event
          else env.buildEnvelope env.appID topic e.contentType e.event
            (if e.metadata = [] then [] else populateBulkEntryMeta reqMeta e.metadata)) = .ok evb := by
        revert hface
        cases (if raw then Except.ok e.event
          else env.buildEnvelope env.appID topic e.contentType e.event
            (if e.metadata = [] then [] else populateBulkEntryMeta reqMeta e.metadata)) with
        | error m => intro hface; exact absurd hface (by simp [Except.isOk, Except.toBool])
        | ok v => intro _; exact ⟨v, rfl⟩
      obtain ⟨tail, htail, hlen⟩ :=
        ih (e.entryId :: seen) (fun x hx => hfine x (List.mem_cons_of_mem _ hx)) hval
      have hred : processEntries env pn topic reqMeta raw (e :: rest) seen =
          .ok ({ entryId := e.entryId, event := evb, contentType := e.contentType,
                 metadata := if e.metadata = [] then []
                   else populateBulkEntryMeta reqMeta e.metadata } :: tail) := by
        unfold processEntries
        rw [if_neg hnot]
        simp only [hev, htail]
      exact ⟨_, hred, by simp [hlen]⟩

theorem processEntries_error_of_invalid (env : PubSubEnv) (pn topic : String)
    (reqMeta : Meta) (raw : Bool) (l : List BulkEntryReq) (seen : List String)
    (hbad : entryIdsValid l seen = false) :
    ∃ m, processEntries env pn topic reqMeta raw l seen = .error (.api .invalidArgument m) := by
  induction l generalizing seen with
  | nil => exact absurd hbad (by simp [entryIdsValid])
  | cons e rest ih =>
    unfold entryIdsValid at hbad
    split at hbad
    · rename_i hdup
      refine ⟨"entryId is duplicated or not present for entry", ?_⟩
      unfold processEntries
      rw [if_pos hdup]
      rfl
    · rename_i hnot
      obtain ⟨m, hm⟩ := ih (e.entryId :: seen) hbad
      unfold processEntries
      rw [if_neg hnot]
      cases hev : (if raw then Except.ok e.event
          else env.buildEnvelope env.appID topic e.contentType e.event
            (if e.metadata = [] then [] else populateBulkEntryMeta reqMeta e.metadata)) with
      | error m2 => exact ⟨m2, by simp only [hev]⟩
      | ok evb => exact ⟨m, by simp only [hev, hm]⟩

/-- A violation of the non-empty/unique entry-id rule forces the validity
check used by the loop to fail; generalized over the ids already seen. -/
theorem entryIdsValid_false_of_bad (l : List BulkEntryReq) (seen : List String)
    (hbad : "" ∈ l.map (·.entryId) ∨ ¬ (l.map (·.entryId)).Nodup ∨
      ∃ id ∈ l.map (·.entryId), id ∈ seen) :
    entryIdsValid l seen = false := by
  induction l generalizing seen with
  | nil => simp at hbad
  | cons e rest ih =>
    unfold entryIdsValid
    split
    · rfl
    · rename_i hnot
      push_neg at hnot
      apply ih
      rcases hbad with h | h | h
      · simp only [List.map_cons, List.mem_cons] at h
        rcases h with h | h
        · exact absurd h.symm hnot.2
        · exact Or.inl h
      · simp only [List.map_cons, List.nodup_cons] at h
        by_cases hn : (rest.map (·.entryId)).Nodup
        · have hmem : e.entryId ∈ rest.map (·.entryId) := by
            by_contra hm
            exact h ⟨hm, hn⟩
          exact Or.inr (Or.inr ⟨e.entryId, hmem, List.mem_cons_self _ _⟩)
        · exact Or.inr (Or.inl hn)
      · obtain ⟨id, hid, hseen⟩ := h
        simp only [List.map_cons, List.mem_cons] at hid
        rcases hid with hid | hid
        · subst hid
          exact absurd hseen hnot.1
        · exact Or.inr (Or.inr ⟨id, hid, List.mem_cons_of_mem _ hseen⟩)

/-- Claim C1: for every BulkPublishEventAlpha1 call that passes validation and
whose broker dispatch results in a partial failure (some but not all entries
fail, which the adapter reports as a nil error together with the failed
entries, grpc.go:492), the call returns a success status (no top-level error)
and a response whose failed-entries list is exactly the failed entries with
their per-entry error messages. -/
theorem bulkPublish_partialFailure_success (env : PubSubEnv) (req : BulkPublishReq)
    (pn topic : String) (raw : Bool) (pes : List ProcEntry) (fails : List BrokerFailedEntry)
    (hval : validateAndGetPubsubAndTopic env req.pubsubName req.topic req.metadata =
      .ok (pn, topic, raw))
    (hproc : processEntries env pn topic req.metadata raw req.entries [] = .ok pes)
    (hbroker : env.brokerResult = { failedEntries := fails, err := none })
    (hsome : 0 < fails.length) (hnotall : fails.length < req.entries.length) :
    (bulkPublishEventAlpha1 env req).err = none ∧
    (bulkPublishEventAlpha1 env req).resp.failedEntries =
      fails.map (fun r => { entryId := r.entryId, error := r.error.getD ("") }) := by
  unfold bulkPublishEventAlpha1
  rw [hval]
  simp only [hproc, hbroker]
  exact ⟨by trivial, by trivial⟩

/-- Closed witness for bulkPublish_partialFailure_success: a two-entry batch
where exactly one entry fails at the broker. -/
def psEnvW : PubSubEnv where
  adapterConfigured := true
  pubsubs := ["ps1"]
  appID := "app"
  buildEnvelope := fun _ _ _ data _ => .ok data
  brokerResult := { failedEntries := [{ entryId := "a", error := some ("boom") }], err := none }

def bulkReqW : BulkPublishReq where
  pubsubName := "ps1"
  topic := "t"
  entries := [{ entryId := "a", event := [1], contentType := "", metadata := [] },
              { entryId := "b", event := [2], contentType := "", metadata := [] }]
  metadata := []

theorem bulkPublish_partialFailure_success_witness :
    (bulkPublishEventAlpha1 psEnvW bulkReqW).err = none ∧
    (bulkPublishEventAlpha1 psEnvW bulkReqW).resp.failedEntries =
      [{ entryId := "a", error := "boom" }] :=
  bulkPublish_partialFailure_success psEnvW bulkReqW ("ps1") "t" false
    [{ entryId := "a", event := [1], contentType := "", metadata := [] },
     { entryId := "b", event := [2], contentType := "", metadata := [] }]
    [{ entryId := "a", error := some ("boom") }]
    rfl rfl rfl (by decide) (by decide)

/-- Claim C2: for every BulkPublishEventAlpha1 call that passes the request
validation and whose entry list contains an empty entry id or two entries
with the same entry id, the whole request fails with InvalidArgument and no
side effect occurs: no broker dispatch happens and no egress metric is
recorded. -/
theorem bulkPublish_badEntryIds_invalidArgument (env : PubSubEnv) (req : BulkPublishReq)
    (pn topic : String) (raw : Bool)
    (hval : validateAndGetPubsubAndTopic env req.pubsubName req.topic req.metadata =
      .ok (pn, topic, raw))
    (hbad : "" ∈ req.entries.map (·.entryId) ∨ ¬ (req.entries.map (·.entryId)).Nodup) :
    (∃ m, (bulkPublishEventAlpha1 env req).err = some (.api .invalidArgument m)) ∧
    (bulkPublishEventAlpha1 env req).effects = [] := by
  have hfail : entryIdsValid req.entries [] = false := by
    apply entryIdsValid_false_of_bad
    rcases hbad with h | h
    · exact Or.inl h
    · exact Or.inr (Or.inl h)
  obtain ⟨m, hm⟩ := processEntries_error_of_invalid env pn topic req.metadata raw
    req.entries [] hfail
  unfold bulkPublishEventAlpha1
  rw [hval]
  simp only [hm]
  exact ⟨⟨m, by trivial⟩, by trivial⟩

/-- Closed witness for bulkPublish_badEntryIds_invalidArgument: entry ids
[a, a, b] (a duplicated). -/
def bulkReqDupW : BulkPublishReq where
  pubsubName := "ps1"
  topic := "t"
  entries := [{ entryId := "a", event := [1], contentType := "", metadata := [] },
              { entryId := "a", event := [2], contentType := "", metadata := [] },
              { entryId := "b", event := [3], contentType := "", metadata := [] }]
  metadata := []

theorem bulkPublish_badEntryIds_invalidArgument_witness :
    (∃ m, (bulkPublishEventAlpha1 psEnvW bulkReqDupW).err = some (.api .invalidArgument m)) ∧
    (bulkPublishEventAlpha1 psEnvW bulkReqDupW).effects = [] :=
  bulkPublish_badEntryIds_invalidArgument psEnvW bulkReqDupW ("ps1") "t" false
    rfl (by decide)

/-- The etag error kinds of state.ETagError (components-contrib). -/
inductive ETagKind where
  | mismatch
  | invalid
  deriving DecidableEq

/-- An error returned by a state-store driver call: the message, whether
errors.As recognizes it as a state.ETagError (and its kind), and whether
kiterrors.FromError recognizes it as a rich error (and the status it
carries). -/
structure DriverError where
  msg : String
  etagKind : Option ETagKind := none
  kit : Option (Code × String) := none
  deriving DecidableEq

/-- getStateErrorCode (grpc.go:796): a state.ETagError maps its kind
(ETagMismatch to Aborted, ETagInvalid to InvalidArgument); anything else maps
to Internal. -/
def getStateErrorCode (e : DriverError) : Code :=
  match e.etagKind with
  | some .mismatch => .aborted
  | some .invalid => .invalidArgument
  | none => .internal

/-- The taxonomy kind ConditionFailed of spec section 4.I, as it appears on
the wire: the gRPC Aborted status (HTTP 409 Conflict). -/
def conditionFailed : Code := .aborted

/-- Modelled from the spec: the message template used by the SaveState error
path (messages.ErrStateSave, pkg/messages not under src/); templated on the
component name and the upstream message, which it preserves. -/
def errStateSave (storeName msg : String) : String :=
  "failed saving state in state store " ++ storeName ++ ": " ++ msg

/-- Modelled from the spec: the message template used by the DeleteState error
path (messages.ErrStateDelete); templated on the key and the upstream
message, which it preserves. -/
def errStateDelete (key msg : String) : String :=
  "failed deleting state with key " ++ key ++ ": " ++ msg

/-- Modelled from the spec: the message template used by the DeleteBulkState
error path (messages.ErrStateDeleteBulk); templated on the component name and
the upstream message, which it preserves. -/
def errStateDeleteBulk (storeName msg : String) : String :=
  "failed deleting state in state store " ++ storeName ++ ": " ++ msg

/-- The error-wrapping pattern shared by the SaveState / DeleteState /
DeleteBulkState error paths (grpc.go:783, 848, 902): a driver error already
carrying a rich status passes through; anything else becomes an API error
whose status is getStateErrorCode and whose message is the operation template
applied to the upstream message. -/
def mapStateWriteError (template : String → String) (e : DriverError) : Err :=
  match e.kit with
  | some (c, m) => .kitPass c m
  | none => .api (getStateErrorCode e) (template e.msg)

/-- A state item of the request (commonv1pb.StateItem): key, value bytes,
optional etag, metadata, and optional (concurrency, consistency) options
already rendered as driver strings. -/
structure StateItemReq where
  key : String
  value : Bytes
  etag : Option String
  metadata : Meta
  options : Option (String × String)
  deriving DecidableEq

/-- A transactional operation of the request
(runtimev1pb.TransactionalStateOperation): the operation type string and the
embedded state item. -/
structure TxItemReq where
  operationType : String
  key : String
  value : Bytes
  etag : Option String
  metadata : Meta
  options : Option (String × String)
  deriving DecidableEq

/-- A state.BulkGetResponse item returned by the driver. -/
structure BulkGetDriverItem where
  key : String
  data : Bytes
  etag : Option String
  metadata : Meta
  error : String
  deriving DecidableEq

/-- A state.GetResponse returned by the driver. -/
structure GetDriverResp where
  data : Bytes
  etag : Option String
  metadata : Meta
  deriving DecidableEq

/-- runtimev1pb.BulkStateItem surfaced to the caller. -/
structure BulkStateItem where
  key : String
  data : Bytes
  etag : String
  metadata : Meta
  error : String
  deriving DecidableEq

/-- runtimev1pb.GetBulkStateResponse. -/
structure GetBulkStateResponse where
  items : List BulkStateItem := []
  deriving DecidableEq

/-- runtimev1pb.GetStateResponse. -/
structure GetStateResponse where
  data : Bytes := []
  etag : String := ""
  metadata : Meta := []
  deriving DecidableEq

/-- Environment of the state handlers: the configured store names and
capabilities (component store), the app id, the per-store encryption gate,
and the behavior of each (resiliency-wrapped) driver call, plus the outbox
collaborator.  Driver behaviors and the outbox are functions of the
dispatched request so the handlers stay pure. -/
structure StateEnv where
  stores : List String
  appID : String
  encryptedStores : List String
  scheme : EncryptionScheme
  transactionalStores : List String
  multiMaxSize : String → Option Int
  jsonUnmarshal : Bytes → Except String GoValue
  bulkGetResult : List GetReq → Except DriverError (List BulkGetDriverItem)
  getResult : GetReq → Except DriverError GetDriverResp
  setResult : List SetReq → Option DriverError
  deleteResult : DeleteReq → Option DriverError
  bulkDeleteResult : List DeleteReq → Option DriverError
  multiResult : List TxOp → Option DriverError
  outboxEnabled : String → Bool
  outboxPublish : List TxOp → Except String (List TxOp)

/-- Modelled from the spec: Universal.GetStateStore (pkg/api/universal, not
under src/).  Per section 4.A an absent store fails the lookup; with no store
configured at all the failure is a not-configured error. -/
def getStateStore (env : StateEnv) (name : String) : Except Err Unit :=
  if env.stores = [] then
    .error (.api .failedPrecondition ("state store is not configured"))
  else if env.stores.contains name = false then
    .error (.api .invalidArgument ("state store " ++ name ++ " is not found"))
  else
    .ok ()

/-- encryption.EncryptedStateStore: whether the named store has the
encryption gate enabled. -/
def encryptedStateStore (env : StateEnv) (name : String) : Bool :=
  env.encryptedStores.contains name

/-- The per-item loop of SaveState (grpc.go:726): empty keys are rejected,
keys are rewritten, a JSON content type routes the value through
json.Unmarshal, the etag and options are copied, and on an encrypted store
the value is replaced by the encryption of the submitted bytes. -/
def buildSetRequests (env : StateEnv) (storeName : String) :
    List StateItemReq → Except Err (List SetReq)
  | [] => .ok []
  | s :: rest =>
    if s.key = "" then
      .error (.api .invalidArgument ("state key cannot be empty"))
    else
      match getModifiedStateKey s.key storeName env.appID with
      | .error e => .error e
      | .ok key =>
        let valueE : Except Err GoValue :=
          if s.metadata.lookup ("contentType") = some ("application/json") then
            match env.jsonUnmarshal s.value with
            | .error m => .error (.raw m)
            | .ok v => .ok v
          else .ok (.bytes s.value)
        match valueE with
        | .error e => .error e
        | .ok v0 =>
          let v := if encryptedStateStore env storeName then
              GoValue.bytes (env.scheme.encrypt s.value)
            else v0
          let req : SetReq :=
            { key := key, value := v, etag := s.etag, metadata := s.metadata,
              concurrency := (s.options.map (·.1)).getD (""),
              consistency := (s.options.map (·.2)).getD ("") }
          match buildSetRequests env storeName rest with
          | .error e => .error e
          | .ok tail => .ok (req :: tail)

/-- Modelled from the spec: stateLoader.PerformBulkStoreOperation
(pkg/components/state, not under src/) for the Set path.  Per section 4.G an
empty request list performs no dispatch and succeeds; otherwise one
(resiliency-wrapped) store operation is dispatched with the whole list. -/
def performBulkSet (env : StateEnv) (storeName : String) (reqs : List SetReq) :
    List Effect × Option DriverError :=
  if reqs = [] then ([], none)
  else ([Effect.stateDispatch storeName (.setBulk reqs)], env.setResult reqs)

/-- Modelled from the spec: stateLoader.PerformBulkStoreOperation for the
Delete path, as above. -/
def performBulkDelete (env : StateEnv) (storeName : String) (reqs : List DeleteReq) :
    List Effect × Option DriverError :=
  if reqs = [] then ([], none)
  else ([Effect.stateDispatch storeName (.deleteBulk reqs)], env.bulkDeleteResult reqs)

/-- SaveState (grpc.go:711): store lookup, early success on an empty states
list, the per-item build loop, the bulk store dispatch, the Set metric, and
the etag-taxonomy error mapping with the save template. -/
def saveState (env : StateEnv) (storeName : String) (states : List StateItemReq) :
    RpcResult Unit :=
  match getStateStore env storeName with
  | .error e => { resp := (), err := some e, effects := [] }
  | .ok _ =>
    if states.length = 0 then { resp := (), err := none, effects := [] }
    else
      match buildSetRequests env storeName states with
      | .error e => { resp := (), err := some e, effects := [] }
      | .ok reqs =>
        let (dispatch, derr) := performBulkSet env storeName reqs
        let effects := dispatch ++ [Effect.stateMetric storeName ("set") (derr = none)]
        match derr with
        | some e =>
          { resp := (), err := some (mapStateWriteError (errStateSave storeName) e),
            effects := effects }
        | none => { resp := (), err := none, effects := effects }

/-- GetState (grpc.go:647): store lookup, key rewrite, driver Get dispatch,
the Get metric, error mapping (rich driver errors pass through, others become
an internal templated error), and the decryption pass on an encrypted store. -/
def getState (env : StateEnv) (storeName key : String) (meta : Meta)
    (consistency : String) : RpcResult GetStateResponse :=
  match getStateStore env storeName with
  | .error e => { resp := {}, err := some e, effects := [] }
  | .ok _ =>
    match getModifiedStateKey key storeName env.appID with
    | .error e => { resp := {}, err := some e, effects := [] }
    | .ok mkey =>
      let req : GetReq := { key := mkey, metadata := meta, consistency := consistency }
      let dispatch := [Effect.stateDispatch storeName (.get req)]
      match env.getResult req with
      | .error e =>
        let effects := dispatch ++ [Effect.stateMetric storeName ("get") false]
        let err := match e.kit with
          | some (c, m) => Err.kitPass c m
          | none => Err.api .internal ("failed getting state with key " ++ key ++ ": " ++ e.msg)
        { resp := {}, err := some err, effects := effects }
      | .ok r =>
        let effects := dispatch ++ [Effect.stateMetric storeName ("get") true]
        if encryptedStateStore env storeName then
          match env.scheme.decrypt r.data with
          | .error m =>
            { resp := {},
              err := some (.api .internal ("failed getting state with key " ++ key ++ ": " ++ m)),
              effects := effects }
          | .ok val =>
            { resp := { data := val, etag := r.etag.getD (""), metadata := r.metadata },
              err := none, effects := effects }
        else
          { resp := { data := r.data, etag := r.etag.getD (""), metadata := r.metadata },
            err := none, effects := effects }

/-- The state.DeleteRequest built by DeleteState (grpc.go:823) from the
rewritten key, etag and options. -/
def mkDeleteReq (mkey : String) (etag : Option String) (meta : Meta)
    (options : Option (String × String)) : DeleteReq :=
  { key := mkey, etag := etag, metadata := meta,
    concurrency := (options.map (·.1)).getD (""),
    consistency := (options.map (·.2)).getD ("") }

/-- DeleteState (grpc.go:810): store lookup, key rewrite, driver Delete
dispatch, the Delete metric, and the etag-taxonomy error mapping with the
delete template (keyed on the original key). -/
def deleteState (env : StateEnv) (storeName key : String) (etag : Option String)
    (meta : Meta) (options : Option (String × String)) : RpcResult Unit :=
  match getStateStore env storeName with
  | .error e => { resp := (), err := some e, effects := [] }
  | .ok _ =>
    match getModifiedStateKey key storeName env.appID with
    | .error e => { resp := (), err := some e, effects := [] }
    | .ok mkey =>
      let req : DeleteReq := mkDeleteReq mkey etag meta options
      let derr := env.deleteResult req
      let effects := [Effect.stateDispatch storeName (.delete req),
                      Effect.stateMetric storeName ("delete") (derr = none)]
      match derr with
      | some e =>
        { resp := (), err := some (mapStateWriteError (errStateDelete key) e),
          effects := effects }
      | none => { resp := (), err := none, effects := effects }

/-- The per-item loop of DeleteBulkState (grpc.go:870): key rewrite, etag and
options copy. -/
def buildDeleteRequests (env : StateEnv) (storeName : String) :
    List StateItemReq → Except Err (List DeleteReq)
  | [] => .ok []
  | s :: rest =>
    match getModifiedStateKey s.key storeName env.appID with
    | .error e => .error e
    | .ok key =>
      let req : DeleteReq :=
        { key := key, etag := s.etag, metadata := s.metadata,
          concurrency := (s.options.map (·.1)).getD (""),
          consistency := (s.options.map (·.2)).getD ("") }
      match buildDeleteRequests env storeName rest with
      | .error e => .error e
      | .ok tail => .ok (req :: tail)

/-- DeleteBulkState (grpc.go:860): store lookup, the per-item build loop, the
bulk delete dispatch, the BulkDelete metric, and the etag-taxonomy error
mapping with the bulk-delete template. -/
def deleteBulkState (env : StateEnv) (storeName : String)
    (states : List StateItemReq) : RpcResult Unit :=
  match getStateStore env storeName with
  | .error e => { resp := (), err := some e, effects := [] }
  | .ok _ =>
    match buildDeleteRequests env storeName states with
    | .error e => { resp := (), err := some e, effects := [] }
    | .ok reqs =>
      let (dispatch, derr) := performBulkDelete env storeName reqs
      let effects := dispatch ++ [Effect.stateMetric storeName ("bulk_delete") (derr = none)]
      match derr with
      | some e =>
        { resp := (), err := some (mapStateWriteError (errStateDeleteBulk storeName) e),
          effects := effects }
      | none => { resp := (), err := none, effects := effects }

/-- The per-key loop of GetBulkState (grpc.go:585): each requested logical key
is rewritten into the driver request. -/
def buildGetRequests (env : StateEnv) (storeName : String) (meta : Meta) :
    List String → Except Err (List GetReq)
  | [] => .ok []
  | k :: rest =>
    match getModifiedStateKey k storeName env.appID with
    | .error e => .error e
    | .ok key =>
      match buildGetRequests env storeName meta rest with
      | .error e => .error e
      | .ok tail => .ok ({ key := key, metadata := meta, consistency := "" } :: tail)

/-- The projection loop of GetBulkState (grpc.go:613): each driver item is
surfaced with the original logical key recovered from the driver key, the
data, the etag (empty when absent), the metadata and the per-item error. -/
def projectItems (items : List BulkGetDriverItem) : List BulkStateItem :=
  items.map (fun r =>
    { key := getOriginalStateKey r.key, data := r.data, etag := r.etag.getD (""),
      metadata := r.metadata, error := r.error })

/-- The per-item decryption pass of GetBulkState (grpc.go:626): items with an
error or empty data get their data cleared; a decryption failure clears the
data and populates the item error; otherwise the data is replaced by the
plaintext. -/
def decryptBulkItem (env : StateEnv) (it : BulkStateItem) : BulkStateItem :=
  if it.error ≠ "" ∨ it.data.length = 0 then { it with data := [] }
  else
    match env.scheme.decrypt it.data with
    | .error m => { it with data := [], error := m }
    | .ok v => { it with data := v }

/-- GetBulkState (grpc.go:571): store lookup, early empty response on an
empty key list, key rewriting into driver requests, the BulkGet dispatch and
metric, projection of driver items back to original keys, and the per-item
decryption pass on an encrypted store. -/
def getBulkState (env : StateEnv) (storeName : String) (keys : List String)
    (meta : Meta) (parallelism : Int) : RpcResult GetBulkStateResponse :=
  match getStateStore env storeName with
  | .error e => { resp := {}, err := some e, effects := [] }
  | .ok _ =>
    if keys.length = 0 then { resp := {}, err := none, effects := [] }
    else
      match buildGetRequests env storeName meta keys with
      | .error e => { resp := {}, err := some e, effects := [] }
      | .ok reqs =>
        let dispatch := [Effect.stateDispatch storeName (.bulkGet reqs parallelism)]
        match env.bulkGetResult reqs with
        | .error e =>
          let effects := dispatch ++ [Effect.stateMetric storeName ("bulk_get") false]
          let err := match e.kit with
            | some (c, m) => Err.kitPass c m
            | none => Err.raw e.msg
          { resp := {}, err := some err, effects := effects }
        | .ok rs =>
          let effects := dispatch ++ [Effect.stateMetric storeName ("bulk_get") true]
          let items := projectItems rs
          let items2 := if encryptedStateStore env storeName then
              items.map (decryptBulkItem env)
            else items
          { resp := { items := items2 }, err := none, effects := effects }

/-- The ASCII bytes of a string. -/
def stringBytes (s : String) : Bytes := s.data.map Char.toNat

/-- The Go fmt rendering of a byte slice under the %v verb: the decimal byte
values, space separated, in square brackets (e.g. "[104 105]"). -/
def goFmtBytes (b : Bytes) : String :=
  "[" ++ String.intercalate (" ") (b.map (fun n => toString n)) ++ "]"

/-- fmt.Sprintf with the %v verb applied to a state value held in a Go `any`
(grpc.go:1006): a byte slice renders as its decimal-list form; an unmarshalled
JSON value renders as its text. -/
def sprintfV : GoValue → Bytes
  | .bytes b => stringBytes (goFmtBytes b)
  | .jsonVal s => stringBytes s

/-- The per-operation loop of ExecuteStateTransaction (grpc.go:937): etag
extraction, key rewrite, and the switch on the operation type building an
upsert or delete; an unknown operation type fails with Unimplemented. -/
def buildTxOps (env : StateEnv) (storeName : String) :
    List TxItemReq → Except Err (List TxOp)
  | [] => .ok []
  | r :: rest =>
    match getModifiedStateKey r.key storeName env.appID with
    | .error e => .error e
    | .ok key =>
      if r.operationType = "upsert" then
        let op : TxOp := .set
          { key := key, value := .bytes r.value, etag := r.etag, metadata := r.metadata,
            concurrency := (r.options.map (·.1)).getD (""),
            consistency := (r.options.map (·.2)).getD ("") }
        match buildTxOps env storeName rest with
        | .error e => .error e
        | .ok tail => .ok (op :: tail)
      else if r.operationType = "delete" then
        let op : TxOp := .del
          { key := key, etag := r.etag, metadata := r.metadata,
            concurrency := (r.options.map (·.1)).getD (""),
            consistency := (r.options.map (·.2)).getD ("") }
        match buildTxOps env storeName rest with
        | .error e => .error e
        | .ok tail => .ok (op :: tail)
      else
        .error (.api .unimplemented ("operation type " ++ r.operationType ++ " not supported"))

/-- The encryption pass of ExecuteStateTransaction (grpc.go:1002): each upsert
value is first rendered through fmt.Sprintf %v and the resulting bytes are
encrypted; deletes are untouched. -/
def encryptTxOp (env : StateEnv) : TxOp → TxOp
  | .set r => .set { r with value := .bytes (env.scheme.encrypt (sprintfV r.value)) }
  | .del r => .del r

/-- Modelled from the spec: the too-many-operations message of
apierrors.StateStore ... TooManyTransactionalOps (pkg/api/errors, not under
src/). -/
def errTooManyTxOps (count maxCount : Int) : String :=
  "the transaction contains " ++ toString count ++
    " operations, which is more than what the state store supports: " ++ toString maxCount

/-- ExecuteStateTransaction (grpc.go:922): store lookup, the transactional
capability check, the per-operation build loop, the max-operations bound
check (InvalidArgument, before any dispatch), the encryption pass, the outbox
rewrite, the driver Multi dispatch with its metric, and the Internal error
mapping of a failed Multi. -/
def executeStateTransaction (env : StateEnv) (storeName : String)
    (operations : List TxItemReq) (meta : Meta) : RpcResult Unit :=
  match getStateStore env storeName with
  | .error e => { resp := (), err := some e, effects := [] }
  | .ok _ =>
    if env.transactionalStores.contains storeName = false then
      { resp := (),
        err := some (.api .unimplemented
          ("state store " ++ storeName ++ " does not support transactions")),
        effects := [] }
    else
      match buildTxOps env storeName operations with
      | .error e => { resp := (), err := some e, effects := [] }
      | .ok ops =>
        let maxCheck : Option Err :=
          match env.multiMaxSize storeName with
          | some m =>
            if 0 < m ∧ m < (ops.length : Int) then
              some (.api .invalidArgument (errTooManyTxOps (ops.length : Int) m))
            else none
          | none => none
        match maxCheck with
        | some e => { resp := (), err := some e, effects := [] }
        | none =>
          let ops2 := if encryptedStateStore env storeName then
              ops.map (encryptTxOp env)
            else ops
          let opsE : Except Err (List TxOp) :=
            if env.outboxEnabled storeName then
              match env.outboxPublish ops2 with
              | .error m => .error (.api .internal ("error while publishing outbox message: " ++ m))
              | .ok o => .ok o
            else .ok ops2
          match opsE with
          | .error e => { resp := (), err := some e, effects := [] }
          | .ok ops3 =>
            let derr := env.multiResult ops3
            let effects := [Effect.stateDispatch storeName (.multi ops3 meta),
                            Effect.stateMetric storeName ("state_transaction") (derr = none)]
            match derr with
            | some e =>
              { resp := (),
                err := some (.api .internal ("error while executing state transaction: " ++ e.msg)),
                effects := effects }
            | none => { resp := (), err := none, effects := effects }

theorem getModifiedStateKey_ok (key storeName appID mk : String)
    (h : getModifiedStateKey key storeName appID = .ok mk) :
    mk = appID ++ "||" ++ key := by
  unfold getModifiedStateKey at h
  split at h
  · exact absurd h (by simp)
  · split at h
    · exact absurd h (by simp)
    · simpa using h.symm

theorem buildTxOps_length (env : StateEnv) (storeName : String)
    (l : List TxItemReq) (ops : List TxOp)
    (h : buildTxOps env storeName l = .ok ops) : ops.length = l.length := by
  induction l generalizing ops with
  | nil =>
    have : ops = [] := by simpa [buildTxOps] using h.symm
    subst this
    rfl
  | cons r rest ih =>
    unfold buildTxOps at h
    cases hk : getModifiedStateKey r.key storeName env.appID with
    | error e => simp only [hk] at h; exact absurd h (by simp)
    | ok key =>
      simp only [hk] at h
      by_cases hup : r.operationType = "upsert"
      · rw [if_pos hup] at h
        cases ht : buildTxOps env storeName rest with
        | error e => simp only [ht] at h; exact absurd h (by simp)
        | ok tail =>
          simp only [ht] at h
          injection h with h2
          subst h2
          simp [ih tail ht]
      · rw [if_neg hup] at h
        by_cases hdel : r.operationType = "delete"
        · rw [if_pos hdel] at h
          cases ht : buildTxOps env storeName rest with
          | error e => simp only [ht] at h; exact absurd h (by simp)
          | ok tail =>
            simp only [ht] at h
            injection h with h2
            subst h2
            simp [ih tail ht]
        · rw [if_neg hdel] at h
          exact absurd h (by simp)

/-- Claim C4: for every ExecuteStateTransaction call on a configured
transactional store that advertises a maximum transactional-operation count
m greater than zero, if the operation list is longer than m the call fails
with InvalidArgument and no operation is dispatched to the store. -/
theorem txn_tooManyOps_invalidArgument (env : StateEnv) (storeName : String)
    (operations : List TxItemReq) (meta : Meta) (ops : List TxOp) (m : Int)
    (hstore : getStateStore env storeName = .ok ())
    (htx : env.transactionalStores.contains storeName = true)
    (hbuild : buildTxOps env storeName operations = .ok ops)
    (hmax : env.multiMaxSize storeName = some m)
    (hm : 0 < m) (hn : m < (operations.length : Int)) :
    (executeStateTransaction env storeName operations meta).err =
      some (.api .invalidArgument (errTooManyTxOps (operations.length : Int) m)) ∧
    (executeStateTransaction env storeName operations meta).effects = [] := by
  have hlen := buildTxOps_length env storeName operations ops hbuild
  unfold executeStateTransaction
  simp only [hstore, htx]
  rw [if_neg (by simp)]
  simp only [hbuild, hmax, hlen]
  rw [if_pos ⟨hm, hn⟩]
  exact ⟨by trivial, by trivial⟩

/-- Environment used to evaluate the transactional bound check: one
transactional store advertising a maximum of one operation. -/
def stEnvMaxW : StateEnv where
  stores := ["ts1"]
  appID := "app"
  encryptedStores := []
  scheme := markScheme
  transactionalStores := ["ts1"]
  multiMaxSize := fun _ => some 1
  jsonUnmarshal := fun _ => .error ("unused")
  bulkGetResult := fun _ => .ok []
  getResult := fun _ => .ok { data := [], etag := none, metadata := [] }
  setResult := fun _ => none
  deleteResult := fun _ => none
  bulkDeleteResult := fun _ => none
  multiResult := fun _ => none
  outboxEnabled := fun _ => false
  outboxPublish := fun o => .ok o

def txTwoOpsW : List TxItemReq :=
  [{ operationType := "upsert", key := "k1", value := [1], etag := none, metadata := [],
     options := none },
   { operationType := "delete", key := "k2", value := [], etag := none, metadata := [],
     options := none }]

theorem txn_tooManyOps_invalidArgument_witness :
    (executeStateTransaction stEnvMaxW ("ts1") txTwoOpsW []).err =
      some (.api .invalidArgument (errTooManyTxOps 2 1)) ∧
    (executeStateTransaction stEnvMaxW ("ts1") txTwoOpsW []).effects = [] :=
  txn_tooManyOps_invalidArgument stEnvMaxW ("ts1") txTwoOpsW []
    [.set { key := "app||k1", value := .bytes [1], etag := none, metadata := [],
            concurrency := "", consistency := "" },
     .del { key := "app||k2", etag := none, metadata := [],
            concurrency := "", consistency := "" }]
    1 rfl rfl rfl rfl (by decide) (by decide)

/-- Claim C7: on a configured store, GetBulkState with an empty key list,
SaveState with an empty states list, and DeleteBulkState with an empty states
list all return an empty success response without dispatching any request to
the state-store driver. -/
theorem emptyList_noDispatch (env : StateEnv) (storeName : String) (meta : Meta)
    (par : Int) (hstore : getStateStore env storeName = .ok ()) :
    getBulkState env storeName [] meta par = { resp := {}, err := none, effects := [] } ∧
    saveState env storeName [] = { resp := (), err := none, effects := [] } ∧
    deleteBulkState env storeName [] =
      { resp := (), err := none,
        effects := [Effect.stateMetric storeName ("bulk_delete") true] } ∧
    (∀ e ∈ (deleteBulkState env storeName []).effects, e.isDispatch = false) := by
  have h1 : getBulkState env storeName [] meta par =
      { resp := {}, err := none, effects := [] } := by
    unfold getBulkState
    simp only [hstore]
    rfl
  have h2 : saveState env storeName [] = { resp := (), err := none, effects := [] } := by
    unfold saveState
    simp only [hstore]
    rfl
  have h3 : deleteBulkState env storeName [] =
      { resp := (), err := none,
        effects := [Effect.stateMetric storeName ("bulk_delete") true] } := by
    unfold deleteBulkState
    simp only [hstore]
    simp [buildDeleteRequests, performBulkDelete]
  refine ⟨h1, h2, h3, ?_⟩
  rw [h3]
  intro e he
  simp only [List.mem_singleton] at he
  subst he
  rfl

theorem emptyList_noDispatch_witness :
    getBulkState stEnvMaxW ("ts1") [] [] 0 = { resp := {}, err := none, effects := [] } ∧
    saveState stEnvMaxW ("ts1") [] = { resp := (), err := none, effects := [] } ∧
    deleteBulkState stEnvMaxW ("ts1") [] =
      { resp := (), err := none,
        effects := [Effect.stateMetric ("ts1") ("bulk_delete") true] } :=
  have h := emptyList_noDispatch stEnvMaxW ("ts1") [] 0 rfl
  ⟨h.1, h.2.1, h.2.2.1⟩

theorem buildGetRequests_ok (env : StateEnv) (storeName : String) (meta : Meta)
    (keys : List String) (reqs : List GetReq)
    (h : buildGetRequests env storeName meta keys = .ok reqs) :
    reqs.map (·.key) = keys.map (fun k => env.appID ++ "||" ++ k) ∧
    ∀ k ∈ keys, getModifiedStateKey k storeName env.appID = .ok (env.appID ++ "||" ++ k) := by
  induction keys generalizing reqs with
  | nil =>
    have hr : reqs = [] := by simpa [buildGetRequests] using h.symm
    subst hr
    exact ⟨rfl, by simp⟩
  | cons k rest ih =>
    unfold buildGetRequests at h
    cases hk : getModifiedStateKey k storeName env.appID with
    | error e => simp only [hk] at h; exact absurd h (by simp)
    | ok mk =>
      simp only [hk] at h
      cases ht : buildGetRequests env storeName meta rest with
      | error e => simp only [ht] at h; exact absurd h (by simp)
      | ok tail =>
        simp only [ht] at h
        injection h with h2
        subst h2
        obtain ⟨h1, h2⟩ := ih tail ht
        have hmk := getModifiedStateKey_ok k storeName env.appID mk hk
        subst hmk
        constructor
        · simp [h1]
        · intro x hx
          rcases List.mem_cons.mp hx with hx | hx
          · subst hx; exact hk
          · exact h2 x hx

theorem decryptBulkItem_key (env : StateEnv) (it : BulkStateItem) :
    (decryptBulkItem env it).key = it.key := by
  unfold decryptBulkItem
  split
  · rfl
  · split <;> rfl

theorem decryptPass_keys (env : StateEnv) (b : Bool) (items : List BulkStateItem) :
    ((if b then items.map (decryptBulkItem env) else items).map (·.key)) =
      items.map (·.key) := by
  cases b with
  | false => rfl
  | true =>
    simp only [if_pos]
    rw [List.map_map]
    exact List.map_congr_left (fun it _ => decryptBulkItem_key env it)

/-- Claim C6: for every GetBulkState call, each key of the request dispatched
to the state-store driver is the rewritten (app-scoped) form of a requested
logical key, and each item of the response carries the key obtained by
reversing the rewrite on the key the driver returned; in particular, when the
driver echoes the request keys, the caller observes exactly the original
logical keys. -/
theorem getBulkState_key_rewrite (env : StateEnv) (storeName : String)
    (keys : List String) (meta : Meta) (par : Int) (reqs : List GetReq)
    (items : List BulkGetDriverItem)
    (hstore : getStateStore env storeName = .ok ())
    (hne : keys ≠ [])
    (hbuild : buildGetRequests env storeName meta keys = .ok reqs)
    (hdrv : env.bulkGetResult reqs = .ok items) :
    (getBulkState env storeName keys meta par).effects =
      [Effect.stateDispatch storeName (.bulkGet reqs par),
       Effect.stateMetric storeName ("bulk_get") true] ∧
    reqs.map (·.key) = keys.map (fun k => env.appID ++ "||" ++ k) ∧
    (getBulkState env storeName keys meta par).resp.items.map (·.key) =
      items.map (fun r => getOriginalStateKey r.key) ∧
    ((∀ c ∈ env.appID.data, c ≠ '|') → items.map (·.key) = reqs.map (·.key) →
      (getBulkState env storeName keys meta par).resp.items.map (·.key) = keys) := by
  obtain ⟨hkeys, hok⟩ := buildGetRequests_ok env storeName meta keys reqs hbuild
  have hred : getBulkState env storeName keys meta par =
      { resp := { items := (if encryptedStateStore env storeName then
            List.map (decryptBulkItem env) (projectItems items) else projectItems items) },
        err := none,
        effects := [Effect.stateDispatch storeName (.bulkGet reqs par),
                    Effect.stateMetric storeName ("bulk_get") true] } := by
    unfold getBulkState
    simp only [hstore]
    rw [if_neg (fun hc => hne (List.length_eq_zero.mp hc))]
    simp only [hbuild, hdrv]
    rfl
  have hproj : (projectItems items).map (·.key) =
      items.map (fun r => getOriginalStateKey r.key) := by
    unfold projectItems
    rw [List.map_map]
    rfl
  have hkeysResp : (getBulkState env storeName keys meta par).resp.items.map (·.key) =
      items.map (fun r => getOriginalStateKey r.key) := by
    rw [hred]
    have hpass := decryptPass_keys env (encryptedStateStore env storeName) (projectItems items)
    simp only at hpass ⊢
    rw [hpass, hproj]
  refine ⟨by rw [hred], hkeys, hkeysResp, ?_⟩
  intro happ hecho
  rw [hkeysResp]
  have hmm : items.map (fun r => getOriginalStateKey r.key) =
      (items.map (·.key)).map getOriginalStateKey := by
    rw [List.map_map]
    rfl
  rw [hmm, hecho, hkeys, List.map_map]
  have hpt : ∀ k ∈ keys, (getOriginalStateKey ∘ fun k => env.appID ++ "||" ++ k) k = id k := by
    intro k hk
    exact getOriginalStateKey_rewrite k storeName env.appID _ happ (hok k hk)
  rw [List.map_congr_left hpt, List.map_id]

/-- Environment used to evaluate the key rewrite round trip: one plain store
whose driver echoes the request keys back. -/
def stEnvEchoW : StateEnv where
  stores := ["s1"]
  appID := "app"
  encryptedStores := []
  scheme := markScheme
  transactionalStores := []
  multiMaxSize := fun _ => none
  jsonUnmarshal := fun _ => .error ("unused")
  bulkGetResult := fun reqs => .ok (reqs.map (fun r =>
    { key := r.key, data := [7], etag := none, metadata := [], error := "" }))
  getResult := fun _ => .ok { data := [], etag := none, metadata := [] }
  setResult := fun _ => none
  deleteResult := fun _ => none
  bulkDeleteResult := fun _ => none
  multiResult := fun _ => none
  outboxEnabled := fun _ => false
  outboxPublish := fun o => .ok o

theorem getBulkState_key_rewrite_witness :
    (getBulkState stEnvEchoW ("s1") ["k1", "k2"] [] 0).resp.items.map (·.key) = ["k1", "k2"] :=
  (getBulkState_key_rewrite stEnvEchoW ("s1") ["k1", "k2"] [] 0
    [{ key := "app||k1", metadata := [], consistency := "" },
     { key := "app||k2", metadata := [], consistency := "" }]
    [{ key := "app||k1", data := [7], etag := none, metadata := [], error := "" },
     { key := "app||k2", data := [7], etag := none, metadata := [], error := "" }]
    rfl (by decide) rfl rfl).2.2.2 (by decide) rfl

/-- Environment whose driver rejects every write with an error that already
carries a rich status (kiterrors.FromError succeeds on it). -/
def stEnvKitW : StateEnv where
  stores := ["s1"]
  appID := "app"
  encryptedStores := []
  scheme := markScheme
  transactionalStores := []
  multiMaxSize := fun _ => none
  jsonUnmarshal := fun _ => .error ("unused")
  bulkGetResult := fun _ => .ok []
  getResult := fun _ => .ok { data := [], etag := none, metadata := [] }
  setResult := fun _ => some { msg := "state item not found", etagKind := none,
                               kit := some (.notFound, "state item not found") }
  deleteResult := fun _ => none
  bulkDeleteResult := fun _ => none
  multiResult := fun _ => none
  outboxEnabled := fun _ => false
  outboxPublish := fun o => .ok o

/-- Counterexample to claim C9 as stated: a driver error that is neither an
etag mismatch nor an etag invalid does NOT always map to Internal with a
templated message — a driver error already carrying a rich status (here
NotFound) passes through kiterrors.FromError verbatim (grpc.go:784-785). -/
theorem stateWrite_kitError_passesThrough :
    (saveState stEnvKitW ("s1")
        [{ key := "k", value := [1], etag := none, metadata := [], options := none }]).err =
      some (.kitPass .notFound ("state item not found")) ∧
    (∀ msg, (saveState stEnvKitW ("s1")
        [{ key := "k", value := [1], etag := none, metadata := [], options := none }]).err ≠
      some (.api .internal msg)) := by
  constructor
  · rfl
  · intro msg hcontra
    have h1 : (saveState stEnvKitW ("s1")
        [{ key := "k", value := [1], etag := none, metadata := [], options := none }]).err =
      some (.kitPass .notFound ("state item not found")) := rfl
    rw [h1] at hcontra
    simp at hcontra

/-- Claim C9 (amended): for every state write (SaveState, DeleteState,
DeleteBulkState) whose driver dispatch fails with an error that does not
already carry a rich status, the error surfaced to the caller is determined
by the etag taxonomy: EtagMismatch maps to ConditionFailed (gRPC Aborted),
EtagInvalid maps to InvalidArgument, and any other such driver error maps to
Internal, always with the templated per-operation message preserving the
upstream message.  Driver errors already carrying a rich status pass through
verbatim instead. -/
theorem stateWrite_etag_taxonomy (env : StateEnv) (storeName : String)
    (e : DriverError) (hkit : e.kit = none) :
    (e.etagKind = some .mismatch → getStateErrorCode e = conditionFailed) ∧
    (e.etagKind = some .invalid → getStateErrorCode e = .invalidArgument) ∧
    (e.etagKind = none → getStateErrorCode e = .internal) ∧
    (∀ states reqs, getStateStore env storeName = .ok () → states.length ≠ 0 →
      buildSetRequests env storeName states = .ok reqs → reqs ≠ [] →
      env.setResult reqs = some e →
      (saveState env storeName states).err =
        some (.api (getStateErrorCode e) (errStateSave storeName e.msg))) ∧
    (∀ key etag meta opts mkey, getStateStore env storeName = .ok () →
      getModifiedStateKey key storeName env.appID = .ok mkey →
      env.deleteResult (mkDeleteReq mkey etag meta opts) = some e →
      (deleteState env storeName key etag meta opts).err =
        some (.api (getStateErrorCode e) (errStateDelete key e.msg))) ∧
    (∀ states reqs, getStateStore env storeName = .ok () →
      buildDeleteRequests env storeName states = .ok reqs → reqs ≠ [] →
      env.bulkDeleteResult reqs = some e →
      (deleteBulkState env storeName states).err =
        some (.api (getStateErrorCode e) (errStateDeleteBulk storeName e.msg))) ∧
    (∀ s m, ∃ p, errStateSave s m = p ++ m) ∧
    (∀ k m, ∃ p, errStateDelete k m = p ++ m) ∧
    (∀ s m, ∃ p, errStateDeleteBulk s m = p ++ m) := by
  refine ⟨?_, ?_, ?_, ?_, ?_, ?_, ?_, ?_, ?_⟩
  · intro h; simp [getStateErrorCode, h, conditionFailed]
  · intro h; simp [getStateErrorCode, h]
  · intro h; simp [getStateErrorCode, h]
  · intro states reqs hstore hlen hbuild hne hres
    unfold saveState
    simp only [hstore]
    rw [if_neg hlen]
    simp only [hbuild]
    unfold performBulkSet
    rw [if_neg hne]
    simp only [hres, mapStateWriteError, hkit]
  · intro key etag meta opts mkey hstore hmk hres
    unfold deleteState
    simp only [hstore, hmk, hres, mapStateWriteError, hkit]
  · intro states reqs hstore hbuild hne hres
    unfold deleteBulkState
    simp only [hstore, hbuild]
    unfold performBulkDelete
    rw [if_neg hne]
    simp only [hres, mapStateWriteError, hkit]
  · intro s m; exact ⟨_, rfl⟩
  · intro k m; exact ⟨_, rfl⟩
  · intro s m; exact ⟨_, rfl⟩

/-- Environment whose driver rejects every write with a plain etag-mismatch
error (errors.As recognizes a state.ETagError of kind ETagMismatch). -/
def stEnvEtagW : StateEnv where
  stores := ["s1"]
  appID := "app"
  encryptedStores := []
  scheme := markScheme
  transactionalStores := []
  multiMaxSize := fun _ => none
  jsonUnmarshal := fun _ => .error ("unused")
  bulkGetResult := fun _ => .ok []
  getResult := fun _ => .ok { data := [], etag := none, metadata := [] }
  setResult := fun _ => some { msg := "possible etag mismatch", etagKind := some .mismatch,
                               kit := none }
  deleteResult := fun _ => none
  bulkDeleteResult := fun _ => none
  multiResult := fun _ => none
  outboxEnabled := fun _ => false
  outboxPublish := fun o => .ok o

theorem stateWrite_etag_taxonomy_witness :
    (saveState stEnvEtagW ("s1")
        [{ key := "k", value := [1], etag := some ("1"), metadata := [], options := none }]).err =
      some (.api conditionFailed (errStateSave ("s1") "possible etag mismatch")) :=
  (stateWrite_etag_taxonomy stEnvEtagW ("s1")
    { msg := "possible etag mismatch", etagKind := some .mismatch, kit := none } rfl).2.2.2.1
    [{ key := "k", value := [1], etag := some ("1"), metadata := [], options := none }]
    [{ key := "app||k", value := .bytes [1], etag := some ("1"), metadata := [],
       concurrency := "", consistency := "" }]
    rfl (by decide) rfl (by decide) rfl

/-- Environment with one encrypted transactional store; the driver Get
returns the ciphertext that the transactional upsert below stored. -/
def stEnvEncW : StateEnv where
  stores := ["es1"]
  appID := "app"
  encryptedStores := ["es1"]
  scheme := markScheme
  transactionalStores := ["es1"]
  multiMaxSize := fun _ => none
  jsonUnmarshal := fun _ => .error ("unused")
  bulkGetResult := fun _ => .ok []
  getResult := fun _ => .ok { data := markScheme.encrypt (stringBytes (goFmtBytes [104, 105])),
                              etag := none, metadata := [] }
  setResult := fun _ => none
  deleteResult := fun _ => none
  bulkDeleteResult := fun _ => none
  multiResult := fun _ => none
  outboxEnabled := fun _ => false
  outboxPublish := fun o => .ok o

/-- Claim C3, evaluated at the failing input (code bug): on an encrypted
store, an upsert inside ExecuteStateTransaction of the plaintext bytes
[104, 105] dispatches the encryption of the fmt %v rendering ("[104 105]")
(grpc.go:1006) rather than of the plaintext bytes, so the decrypted payload a
subsequent GetState returns is the 9 ASCII bytes of that rendering and not
the submitted plaintext; the SaveState path, by contrast, encrypts the
submitted bytes and round-trips. -/
theorem encryptedTxnUpsert_not_roundTrip :
    (executeStateTransaction stEnvEncW ("es1")
        [{ operationType := "upsert", key := "k", value := [104, 105], etag := none,
           metadata := [], options := none }] []).effects =
      [Effect.stateDispatch ("es1") (.multi
          [.set { key := "app||k",
                  value := .bytes (markScheme.encrypt (stringBytes (goFmtBytes [104, 105]))),
                  etag := none, metadata := [], concurrency := "", consistency := "" }] []),
       Effect.stateMetric ("es1") ("state_transaction") true] ∧
    (getState stEnvEncW ("es1") "k" [] "").resp.data = stringBytes (goFmtBytes [104, 105]) ∧
    stringBytes (goFmtBytes [104, 105]) ≠ [104, 105] ∧
    (saveState stEnvEncW ("es1")
        [{ key := "k", value := [104, 105], etag := none, metadata := [],
           options := none }]).effects =
      [Effect.stateDispatch ("es1") (.setBulk
          [{ key := "app||k", value := .bytes (markScheme.encrypt [104, 105]), etag := none,
             metadata := [], concurrency := "", consistency := "" }]),
       Effect.stateMetric ("es1") ("set") true] ∧
    markScheme.decrypt (markScheme.encrypt [104, 105]) = .ok [104, 105] :=
  ⟨by rfl, by rfl, by decide, by rfl, by rfl⟩

/-- runtimev1pb.InvokeBindingResponse. -/
structure BindingResp where
  data : Bytes := []
  metadata : Meta := []
  deriving DecidableEq

/-- Environment of InvokeBinding: the current trace span (traceparent and
tracestate strings) if any, the incoming transport metadata if any
(Go metadata.MD, a map from header name to a list of values, kept as an
ordered association list), the baggage parser (the external OpenTelemetry
library), the reserved header names, and the output-binding driver result. -/
structure BindingEnv where
  span : Option (String × String)
  incomingMD : Option (List (String × List String))
  parseBaggage : String → Except String Unit
  reservedKeys : List String
  bindingResult : Except String (Bytes × Meta)

/-- Set a metadata key, overwriting an existing entry in place or appending. -/
def metaSet (m : Meta) (k v : String) : Meta :=
  if (m.lookup k).isSome then m.map (fun kv => if kv.1 = k then (k, v) else kv)
  else m ++ [(k, v)]

/-- The span-injection block of InvokeBinding (grpc.go:510): traceparent is
set when absent; tracestate is set when absent and the span carries a
non-empty trace state. -/
def injectTrace (span : Option (String × String)) (md : Meta) : Meta :=
  match span with
  | none => md
  | some (tp, ts) =>
    let md1 := if (md.lookup ("traceparent")).isNone then md ++ [("traceparent", tp)] else md
    if (md1.lookup ("tracestate")).isNone ∧ ts ≠ "" then md1 ++ [("tracestate", ts)] else md1

/-- Modelled from the spec: invokev1.ReservedGRPCMetadataToDaprPrefixHeader
(pkg/messaging/v1, not under src/).  Reserved transport headers are remapped
with a stable prefix so drivers see a non-colliding namespace. -/
def sanitizeKey (reserved : List String) (k : String) : String :=
  if reserved.contains k then ("dapr-") ++ k else k

/-- The incoming-metadata copy loop of InvokeBinding (grpc.go:533): each
incoming header is copied under its sanitized key without overwriting,
except traceparent and tracestate which always overwrite. -/
def mergeIncoming (reserved : List String) (base : Meta)
    (incoming : List (String × List String)) : Meta :=
  incoming.foldl (fun acc kv =>
    if (acc.lookup (sanitizeKey reserved kv.1)).isNone ∨ kv.1 = "traceparent" ∨
        kv.1 = "tracestate" then
      metaSet acc (sanitizeKey reserved kv.1) (kv.2.headD (""))
    else acc) base

/-- InvokeBinding (grpc.go:496): the binding request metadata is built from
the request metadata, the span injection, and the incoming transport
metadata; when the incoming metadata carries a baggage header its values are
joined and parsed, and a parse failure returns the raw parse error before any
dispatch or metric; otherwise the binding driver is invoked, the
output-binding metric recorded, and a driver error surfaces as an internal
templated error. -/
def invokeBinding (env : BindingEnv) (name operation : String) (data : Bytes)
    (reqMeta : Meta) : RpcResult BindingResp :=
  let md1 := injectTrace env.span reqMeta
  let afterMD : Except Err Meta :=
    match env.incomingMD with
    | none => .ok md1
    | some incoming =>
      let bvs := (incoming.lookup ("baggage")).getD []
      if 0 < bvs.length then
        match env.parseBaggage (String.intercalate (",") bvs) with
        | .error m => .error (.raw m)
        | .ok _ =>
          .ok (mergeIncoming env.reservedKeys
            (metaSet md1 ("baggage") (String.intercalate (",") bvs)) incoming)
      else .ok (mergeIncoming env.reservedKeys md1 incoming)
  match afterMD with
  | .error e => { resp := {}, err := some e, effects := [] }
  | .ok md =>
    match env.bindingResult with
    | .error m =>
      { resp := {},
        err := some (.api .internal ("error invoking output binding " ++ name ++ ": " ++ m)),
        effects := [Effect.bindingDispatch name operation md,
                    Effect.bindingMetric name operation false] }
    | .ok (d, rmeta) =>
      { resp := { data := d, metadata := rmeta }, err := none,
        effects := [Effect.bindingDispatch name operation md,
                    Effect.bindingMetric name operation true] }

/-- Environment whose incoming metadata carries a malformed baggage header. -/
def bindEnvBadW : BindingEnv where
  span := none
  incomingMD := some [("baggage", ["not;valid;baggage"])]
  parseBaggage := fun _ => .error ("invalid baggage string")
  reservedKeys := []
  bindingResult := .ok ([], [])

/-- Counterexample to claim C8 as stated: on a baggage parse failure,
InvokeBinding returns the raw parse error without any API status attached
(grpc.go:527 returns err unwrapped), so the status the caller observes is
Unknown, not InvalidArgument. -/
theorem invokeBinding_badBaggage_not_invalidArgument :
    (invokeBinding bindEnvBadW ("b1") ("create") [] []).err =
      some (.raw ("invalid baggage string")) ∧
    ((invokeBinding bindEnvBadW ("b1") ("create") [] []).err.map Err.grpcCode =
      some .unknown) ∧
    Code.unknown ≠ Code.invalidArgument := by
  refine ⟨by rfl, by rfl, by decide⟩

/-- Claim C8 (amended): for every InvokeBinding call whose incoming metadata
carries a baggage header that fails to parse, the call fails before any side
effect — the output binding is not invoked and no metric is recorded — but
the error returned is the raw parse error (surfaced by the transport as
Unknown), not an InvalidArgument API error. -/
theorem invokeBinding_badBaggage_noSideEffect (env : BindingEnv)
    (name operation : String) (data : Bytes) (reqMeta : Meta)
    (incoming : List (String × List String)) (bvs : List String) (m : String)
    (hmd : env.incomingMD = some incoming)
    (hbag : incoming.lookup ("baggage") = some bvs)
    (hne : 0 < bvs.length)
    (hparse : env.parseBaggage (String.intercalate (",") bvs) = .error m) :
    (invokeBinding env name operation data reqMeta).err = some (.raw m) ∧
    (Err.raw m).grpcCode = .unknown ∧
    (invokeBinding env name operation data reqMeta).effects = [] := by
  unfold invokeBinding
  simp only [hmd, hbag, Option.getD]
  rw [if_pos hne]
  simp only [hparse]
  exact ⟨by trivial, rfl, by trivial⟩

theorem invokeBinding_badBaggage_noSideEffect_witness :
    (invokeBinding bindEnvBadW ("b1") ("create") [] []).err =
      some (.raw ("invalid baggage string")) ∧
    (Err.raw ("invalid baggage string")).grpcCode = .unknown ∧
    (invokeBinding bindEnvBadW ("b1") ("create") [] []).effects = [] :=
  invokeBinding_badBaggage_noSideEffect bindEnvBadW ("b1") ("create") [] []
    [("baggage", ["not;valid;baggage"])] ["not;valid;baggage"] ("invalid baggage string")
    rfl rfl (by decide) rfl

/-- A message sent on the SubscribeConfiguration server stream
(runtimev1pb.SubscribeConfigurationResponse): either the initial framing
message carrying only the driver-assigned subscription id (grpc.go:1346), or
a configuration update event carrying items (grpc.go:1307). -/
inductive StreamMsg where
  | idMsg (id : String)
  | update (id : String) (items : Meta)
  deriving DecidableEq

/-- The observable state of one SubscribeConfiguration stream: whether the
initial id message has been sent (grpc.go:1346), whether the ready gate
(handler.readyCh) has been opened (grpc.go:1283, 1358), and the sequence of
messages sent to the consumer so far (sends are serialized by the handler
mutex, grpc.go:1295). -/
structure SubState where
  idSent : Bool
  readyOpen : Bool
  trace : List StreamMsg
  deriving DecidableEq

/-- The stream state before the driver Subscribe call returns. -/
def SubState.init : SubState := { idSent := false, readyOpen := false, trace := [] }

/-- The interleaved small-step behavior of one stream with subscription id
subID, on the path where the driver Subscribe call succeeded:
sendId is the single send of the framing id message (grpc.go:1346, executed
once); openGate is handler.ready() which is called only after that send
succeeded (grpc.go:1358) and closes the ready channel once (grpc.go:1283);
deliver is updateEventHandler, which blocks on the ready channel before it
may send (grpc.go:1291), so it requires the gate to be open. -/
inductive SubStep (subID : String) : SubState → SubState → Prop
  | sendId (s : SubState) : s.idSent = false →
      SubStep subID s { idSent := true, readyOpen := s.readyOpen,
                        trace := s.trace ++ [.idMsg subID] }
  | openGate (s : SubState) : s.idSent = true → s.readyOpen = false →
      SubStep subID s { idSent := s.idSent, readyOpen := true, trace := s.trace }
  | deliver (s : SubState) (eid : String) (items : Meta) : s.readyOpen = true →
      SubStep subID s { idSent := s.idSent, readyOpen := s.readyOpen,
                        trace := s.trace ++ [.update eid items] }

/-- States reachable by the stream from its initial state. -/
inductive SubReachable (subID : String) : SubState → Prop
  | init : SubReachable subID SubState.init
  | step (s s' : SubState) : SubReachable subID s → SubStep subID s s' →
      SubReachable subID s'

theorem subscribe_invariant (subID : String) (s : SubState)
    (h : SubReachable subID s) :
    (s.readyOpen = true → s.idSent = true) ∧
    (s.idSent = true → ∃ rest, s.trace = .idMsg subID :: rest) ∧
    (s.idSent = false → s.trace = []) := by
  induction h with
  | init => exact ⟨by simp [SubState.init], by simp [SubState.init], fun _ => rfl⟩
  | step s s' hr hstep ih =>
    obtain ⟨ih1, ih2, ih3⟩ := ih
    cases hstep with
    | sendId hno =>
      have htr : s.trace = [] := ih3 hno
      refine ⟨fun _ => rfl, fun _ => ⟨[], ?_⟩, fun hc => ?_⟩
      · show s.trace ++ [StreamMsg.idMsg subID] = [StreamMsg.idMsg subID]
        rw [htr]
        rfl
      · exact Bool.noConfusion (show true = false from hc)
    | openGate hid hro =>
      exact ⟨fun _ => hid, ih2, ih3⟩
    | deliver eid items hro =>
      have hid : s.idSent = true := ih1 hro
      refine ⟨fun _ => hid, fun _ => ?_, fun hc => ?_⟩
      · obtain ⟨rest, hrr⟩ := ih2 hid
        refine ⟨rest ++ [.update eid items], ?_⟩
        show s.trace ++ [StreamMsg.update eid items] = _
        rw [hrr]
        rfl
      · have hc2 : s.idSent = false := hc
        rw [hid] at hc2
        exact Bool.noConfusion hc2

/-- Claim C5: on every SubscribeConfiguration stream on which the driver
Subscribe call succeeds, in every reachable state with a non-empty send
trace, the first message sent to the consumer is the framing message carrying
the driver-assigned subscription id, and every update event in the trace
comes strictly after it: an update arriving earlier blocks on the ready gate,
which is opened only after the id message has been sent. -/
theorem subscribeConfiguration_id_first (subID : String) (s : SubState)
    (h : SubReachable subID s) (hne : s.trace ≠ []) :
    s.trace.head? = some (.idMsg subID) ∧
    (∀ i : Nat, ∀ hi : i < s.trace.length,
      (∃ eid items, s.trace.get ⟨i, hi⟩ = .update eid items) → 0 < i) := by
  obtain ⟨inv1, inv2, inv3⟩ := subscribe_invariant subID s h
  cases hid : s.idSent with
  | false => exact absurd (inv3 hid) hne
  | true =>
    obtain ⟨rest, hr⟩ := inv2 hid
    constructor
    · rw [hr]; rfl
    · intro i hi hupd
      obtain ⟨eid, items, hget⟩ := hupd
      by_contra hz
      push_neg at hz
      have hz0 : i = 0 := Nat.le_zero.mp hz
      subst hz0
      have h1 : s.trace.get? 0 = some (StreamMsg.update eid items) := by
        rw [List.get?_eq_get hi, hget]
      rw [hr] at h1
      simp at h1

/-- The stream state after the send of the id message, the opening of the
ready gate, and the delivery of one update event. -/
def subTraceW : SubState :=
  { idSent := true, readyOpen := true,
    trace := [.idMsg ("sub-1"), .update ("sub-1") [("k1", "v")]] }

theorem subscribeConfiguration_id_first_witness :
    subTraceW.trace ≠ [] ∧ subTraceW.trace.head? = some (.idMsg ("sub-1")) := by
  have h0 : SubReachable ("sub-1") SubState.init := .init
  have h1 : SubReachable ("sub-1")
      { idSent := true, readyOpen := false, trace := [.idMsg ("sub-1")] } :=
    .step _ _ h0 (SubStep.sendId SubState.init rfl)
  have h2 : SubReachable ("sub-1")
      { idSent := true, readyOpen := true, trace := [.idMsg ("sub-1")] } :=
    .step _ _ h1 (SubStep.openGate _ rfl rfl)
  have h3 : SubReachable ("sub-1") subTraceW :=
    .step _ _ h2 (SubStep.deliver _ ("sub-1") [("k1", "v")] rfl)
  exact ⟨by decide, (subscribeConfiguration_id_first ("sub-1") subTraceW h3 (by decide)).1⟩

/-- Modelled from the spec: the message template of
messages.ErrConfigurationUnsubscribe (pkg/messages, not under src/), naming
the subscription id and the reason. -/
def errConfigurationUnsubscribe (id reason : String) : String :=
  "error occurred while unsubscribing to configuration item " ++ id ++ ": " ++ reason

/-- runtimev1pb.UnsubscribeConfigurationResponse. -/
structure UnsubscribeConfigurationResponse where
  ok : Bool
  message : String := ""
  deriving DecidableEq

/-- UnsubscribeConfiguration (grpc.go:1435).  The process-wide subscription
table of the component store (pkg/runtime/compstore, not under src/) is
modelled from the spec as an association list from subscription id to its
stop channel (abstracted as a number).  An unknown id records the error code
and answers Ok false with a message naming the id, without a transport
error; a known id has its entry (and stop channel) removed from the table
and the call answers Ok true.  The function returns the RPC outcome together
with the table after the call. -/
def unsubscribeConfiguration (table : List (String × Nat)) (id : String) :
    RpcResult UnsubscribeConfigurationResponse × List (String × Nat) :=
  match table.lookup id with
  | none =>
    ({ resp :=
         { ok := false,
           message := errConfigurationUnsubscribe id ("subscription does not exist") },
       err := none,
       effects := [Effect.recordErrorCode ("ERR_CONFIGURATION_UNSUBSCRIBE")] }, table)
  | some _ =>
    ({ resp := { ok := true }, err := none, effects := [] },
     table.filter (fun kv => !(kv.1 == id)))

theorem string_append_assoc (a b c : String) : a ++ b ++ c = a ++ (b ++ c) := by
  cases a with
  | mk d1 =>
    cases b with
    | mk d2 =>
      cases c with
      | mk d3 => exact congrArg String.mk (List.append_assoc d1 d2 d3)

theorem lookup_filter_ne (table : List (String × Nat)) (id : String) :
    (table.filter (fun kv => !(kv.1 == id))).lookup id = none := by
  induction table with
  | nil => rfl
  | cons kv rest ih =>
    by_cases h : kv.1 = id
    · simp [List.filter_cons, h, ih]
    · have hbeq : (kv.1 == id) = false := beq_eq_false_iff_ne.mpr h
      have hbeq2 : (id == kv.1) = false := beq_eq_false_iff_ne.mpr (Ne.symm h)
      simp [List.filter_cons, List.lookup, hbeq, hbeq2, ih]

/-- Claim C10: every UnsubscribeConfiguration call returns without a
transport-level error; when the given subscription id is not in the
subscription table the response has Ok false and a message naming the id and
the table is unchanged; when it is present the entry (and its stop channel)
is removed from the table — so a second lookup misses — and the response has
Ok true. -/
theorem unsubscribeConfiguration_spec (table : List (String × Nat)) (id : String) :
    (unsubscribeConfiguration table id).1.err = none ∧
    (table.lookup id = none →
      (unsubscribeConfiguration table id).1.resp.ok = false ∧
      (∃ p q, (unsubscribeConfiguration table id).1.resp.message = p ++ id ++ q) ∧
      (unsubscribeConfiguration table id).2 = table) ∧
    (∀ st, table.lookup id = some st →
      (unsubscribeConfiguration table id).1.resp.ok = true ∧
      (unsubscribeConfiguration table id).2 = table.filter (fun kv => !(kv.1 == id)) ∧
      ((unsubscribeConfiguration table id).2).lookup id = none) := by
  refine ⟨?_, ?_, ?_⟩
  · unfold unsubscribeConfiguration
    cases hl : table.lookup id with
    | none => rfl
    | some st => rfl
  · intro hmiss
    unfold unsubscribeConfiguration
    simp only [hmiss]
    refine ⟨by trivial, ⟨"error occurred while unsubscribing to configuration item ",
      ": " ++ "subscription does not exist", ?_⟩, by trivial⟩
    simp only [errConfigurationUnsubscribe]
    rw [string_append_assoc]
  · intro st hhit
    unfold unsubscribeConfiguration
    simp only [hhit]
    exact ⟨by trivial, by trivial, lookup_filter_ne table id⟩

theorem unsubscribeConfiguration_spec_witness :
    (unsubscribeConfiguration [("sub-1", 7)] ("sub-1")).1.err = none ∧
    (unsubscribeConfiguration [("sub-1", 7)] ("sub-1")).1.resp.ok = true ∧
    ((unsubscribeConfiguration [("sub-1", 7)] ("sub-1")).2).lookup ("sub-1") = none :=
  have h := unsubscribeConfiguration_spec [("sub-1", 7)] ("sub-1")
  have h2 := h.2.2 7 rfl
  ⟨h.1, h2.1, h2.2.2⟩
